import Mathlib

/-!
Verification of the flight-monitor price-tracking core.

The TypeScript handlers of the repository are shallowly embedded as pure
Lean functions over an explicit database state.  Timestamps are modelled
as integers (epoch instants), monetary values as integers in minor
currency units, and the relational store as lists of rows.  Each mutating
handler takes the current clock value `now` and the database, and returns
the handler's result (`Except DomainError α`, mirroring the `throw`
sites) together with the post-call database; a handler that throws before
reaching its insert or update leaves the database unchanged, exactly as
the TypeScript code does.
-/

namespace FlightMonitor

/-- Alert type enum of `db/schema.ts` (`alertTypeEnum`). -/
inductive AlertType where
  | price_drop
  | price_increase
  | price_target_reached
  deriving DecidableEq, Repr

/-- Row of `usersTable` in `db/schema.ts`. -/
structure User where
  id : Nat
  email : String
  telegram_chat_id : Option String
  notification_enabled : Bool
  created_at : Int
  deriving DecidableEq, Repr

/-- Row of `flightSearchesTable` in `db/schema.ts`. -/
structure FlightSearch where
  id : Nat
  user_id : Nat
  origin_city : String
  destination_city : String
  departure_date : Int
  return_date : Option Int
  is_active : Bool
  created_at : Int
  updated_at : Int
  deriving DecidableEq, Repr

/-- Row of `priceRecordsTable` in `db/schema.ts`; `price` is an integer in
minor currency units (cents). -/
structure PriceRecord where
  id : Nat
  flight_search_id : Nat
  price : Int
  currency : String
  provider : String
  recorded_at : Int
  deriving DecidableEq, Repr

/-- Row of `alertsTable` in `db/schema.ts`. -/
structure Alert where
  id : Nat
  flight_search_id : Nat
  alert_type : AlertType
  old_price : Option Int
  new_price : Int
  currency : String
  message : String
  is_read : Bool
  created_at : Int
  deriving DecidableEq, Repr

/-- Price record as exposed at the price-history read boundary: the price
field is converted to major units, so it is a rational number. -/
structure DisplayPriceRecord where
  id : Nat
  flight_search_id : Nat
  price : ℚ
  currency : String
  provider : String
  recorded_at : Int
  deriving DecidableEq, Repr

/-- The four related tables of the persistent store. -/
structure DB where
  users : List User
  flight_searches : List FlightSearch
  price_records : List PriceRecord
  alerts : List Alert
  deriving DecidableEq, Repr

/-- The distinct failure modes surfaced by the handlers (spec section 7).
Each constructor corresponds to a distinct `throw` site of the code:
`notFound` to the "not found" errors, `inactive` to "is not active",
`invalidTemporalRange` to the two date errors of `createFlightSearch`,
`referentialViolation` to the foreign-key violation raised by the store
inside `createAlert`, and `validationError` to a zod input-schema
rejection at the tRPC boundary. -/
inductive DomainError where
  | notFound
  | inactive
  | invalidTemporalRange
  | referentialViolation
  | validationError
  deriving DecidableEq, Repr

/-- Fresh surrogate key for a `serial` column: one more than the largest
id already present. -/
def nextId (ids : List Nat) : Nat :=
  ids.foldr max 0 + 1

/-- Input of `createFlightSearch` (`createFlightSearchInputSchema`).
`return_date := none` covers both an omitted and an explicitly null
return date; the handler treats the two identically (`input.return_date`
is falsy in both cases). -/
structure CreateFlightSearchInput where
  user_id : Nat
  origin_city : String
  destination_city : String
  departure_date : Int
  return_date : Option Int
  deriving DecidableEq, Repr

/-- Input of `updateFlightSearch` (`updateFlightSearchInputSchema`).  An
outer `none` means the field was not supplied (JS `undefined`); for
`return_date`, `some none` is an explicit null (one-way conversion) and
`some (some d)` a new date, so "omitted" and "explicit null" stay
distinguishable exactly as in the zod schema. -/
structure UpdateFlightSearchInput where
  id : Nat
  origin_city : Option String
  destination_city : Option String
  departure_date : Option Int
  return_date : Option (Option Int)
  is_active : Option Bool
  deriving DecidableEq, Repr

/-- Input of `createPriceRecord` (`createPriceRecordInputSchema`). -/
structure CreatePriceRecordInput where
  flight_search_id : Nat
  price : Int
  currency : String
  provider : String
  deriving DecidableEq, Repr

/-- Input of `createAlert` (`createAlertInputSchema`); `old_price := none`
covers both an omitted and an explicitly null old price. -/
structure CreateAlertInput where
  flight_search_id : Nat
  alert_type : AlertType
  old_price : Option Int
  new_price : Int
  currency : String
  message : String
  deriving DecidableEq, Repr

/-- Input of `getAlerts` (`getAlertsInputSchema`): three independent
optional filters. -/
structure GetAlertsInput where
  user_id : Option Nat
  flight_search_id : Option Nat
  is_read : Option Bool
  deriving DecidableEq, Repr

/-- Input of `getPriceHistory` (`getPriceHistoryInputSchema`). -/
structure GetPriceHistoryInput where
  flight_search_id : Nat
  limit : Option Nat
  deriving DecidableEq, Repr

/-- Handler `createFlightSearch` (schema.ts part of the source, lines
104-144): checks that the user exists, that `departure_date` is strictly
in the future, and that a present `return_date` is strictly after the
departure; on success inserts one row with `is_active := true` and both
timestamps defaulted to `now`. -/
def createFlightSearch (now : Int) (input : CreateFlightSearchInput) (db : DB) :
    Except DomainError FlightSearch × DB :=
  if (db.users.filter (fun u => decide (u.id = input.user_id))).length = 0 then
    (.error .notFound, db)
  else if input.departure_date ≤ now then
    (.error .invalidTemporalRange, db)
  else if input.return_date.isSome ∧ input.return_date.getD 0 ≤ input.departure_date then
    (.error .invalidTemporalRange, db)
  else
    let s : FlightSearch :=
      { id := nextId (db.flight_searches.map (fun t => t.id))
        user_id := input.user_id
        origin_city := input.origin_city
        destination_city := input.destination_city
        departure_date := input.departure_date
        return_date := input.return_date
        is_active := true
        created_at := now
        updated_at := now }
    (.ok s, { db with flight_searches := db.flight_searches ++ [s] })

/-- The update payload applied by `updateFlightSearch`: `updated_at` is
always set to `now`, and each of the five mutable fields is overwritten
only when supplied. -/
def applyUpdate (now : Int) (input : UpdateFlightSearchInput) (s : FlightSearch) :
    FlightSearch :=
  { s with
    updated_at := now
    origin_city := input.origin_city.getD s.origin_city
    destination_city := input.destination_city.getD s.destination_city
    departure_date := input.departure_date.getD s.departure_date
    return_date := input.return_date.getD s.return_date
    is_active := input.is_active.getD s.is_active }

/-- Handler `updateFlightSearch` (part_004 lines 6-55): select the row,
throw "not found" if absent, otherwise update the row in place (every row
matching the id, which is unique in a real store) and return the updated
row. -/
def updateFlightSearch (now : Int) (input : UpdateFlightSearchInput) (db : DB) :
    Except DomainError FlightSearch × DB :=
  match (db.flight_searches.filter (fun s => decide (s.id = input.id))).head? with
  | none => (.error .notFound, db)
  | some s =>
      (.ok (applyUpdate now input s),
       { db with
         flight_searches := db.flight_searches.map
           (fun t => if t.id = input.id then applyUpdate now input t else t) })

/-- Handler `createPriceRecord` (part_004 lines 60-92): the flight search
must exist and be active; the new record stores the input price verbatim
("Integer column - no conversion needed") with `recorded_at` defaulted to
`now`. -/
def createPriceRecord (now : Int) (input : CreatePriceRecordInput) (db : DB) :
    Except DomainError PriceRecord × DB :=
  match (db.flight_searches.filter (fun s => decide (s.id = input.flight_search_id))).head? with
  | none => (.error .notFound, db)
  | some s =>
      if s.is_active = false then
        (.error .inactive, db)
      else
        let r : PriceRecord :=
          { id := nextId (db.price_records.map (fun t => t.id))
            flight_search_id := input.flight_search_id
            price := input.price
            currency := input.currency
            provider := input.provider
            recorded_at := now }
        (.ok r, { db with price_records := db.price_records ++ [r] })

/-- The zod validation of `createPriceRecordInputSchema` (part_007 lines
87-92): `price` must satisfy `z.number().positive()` (strictly greater
than zero), `currency` must be exactly 3 characters, `provider` nonempty. -/
def createPriceRecordInputValid (input : CreatePriceRecordInput) : Bool :=
  decide (0 < input.price) && decide (input.currency.length = 3)
    && decide (1 ≤ input.provider.length)

/-- The public `createPriceRecord` operation: the tRPC procedure applies
`createPriceRecordInputSchema` before calling the handler (index.ts),
so an input rejected by zod never reaches the handler. -/
def publicCreatePriceRecord (now : Int) (input : CreatePriceRecordInput) (db : DB) :
    Except DomainError PriceRecord × DB :=
  if createPriceRecordInputValid input then
    createPriceRecord now input db
  else
    (.error .validationError, db)

/-- JavaScript `input.old_price || null` of `createAlert`: a falsy old
price (absent, null, or the number 0) is coerced to null. -/
def jsOrNull (o : Option Int) : Option Int :=
  match o with
  | some v => if v = 0 then none else some v
  | none => none

/-- Handler `createAlert` (part_006 lines 5-27): inserts the alert with
`is_read := false` and `old_price := input.old_price || null`; the store's
foreign-key constraint rejects an unknown `flight_search_id`. -/
def createAlert (now : Int) (input : CreateAlertInput) (db : DB) :
    Except DomainError Alert × DB :=
  if db.flight_searches.any (fun s => decide (s.id = input.flight_search_id)) then
    let a : Alert :=
      { id := nextId (db.alerts.map (fun t => t.id))
        flight_search_id := input.flight_search_id
        alert_type := input.alert_type
        old_price := jsOrNull input.old_price
        new_price := input.new_price
        currency := input.currency
        message := input.message
        is_read := false
        created_at := now }
    (.ok a, { db with alerts := db.alerts ++ [a] })
  else
    (.error .referentialViolation, db)

/-- The single-field update applied by `markAlertRead`. -/
def setRead (a : Alert) : Alert :=
  { a with is_read := true }

/-- Handler `markAlertRead` (mark_alert_read.ts lines 24-51): update
`is_read := true` on every row matching the id (the `UPDATE ... RETURNING`
runs first), then throw "not found" if no row was affected, otherwise
return the first affected row. -/
def markAlertRead (alertId : Nat) (db : DB) : Except DomainError Alert × DB :=
  let updated := db.alerts.map (fun a => if a.id = alertId then setRead a else a)
  let affected := (db.alerts.filter (fun a => decide (a.id = alertId))).map setRead
  match affected.head? with
  | none => (.error .notFound, { db with alerts := updated })
  | some a => (.ok a, { db with alerts := updated })

/-- The optional alert-side conditions pushed by `getAlerts` (part_004):
a `flight_search_id` filter and an `is_read` filter, each applied only
when supplied. -/
def alertConds (input : GetAlertsInput) (a : Alert) : Bool :=
  (match input.flight_search_id with
   | some f => decide (a.flight_search_id = f)
   | none => true)
  &&
  (match input.is_read with
   | some r => a.is_read == r
   | none => true)

/-- Descending order on `created_at`, as produced by
`orderBy(desc(alertsTable.created_at))`. -/
def alertCreatedDesc : Alert → Alert → Prop :=
  fun a b => b.created_at ≤ a.created_at

instance : DecidableRel alertCreatedDesc :=
  fun a b => inferInstanceAs (Decidable (b.created_at ≤ a.created_at))

instance : IsTotal Alert alertCreatedDesc :=
  ⟨fun a b => le_total b.created_at a.created_at⟩

instance : IsTrans Alert alertCreatedDesc :=
  ⟨fun _ _ _ hab hbc => le_trans hbc hab⟩

/-- Descending order on the alert's `created_at`, on joined
(alert, flight search) rows. -/
def joinedCreatedDesc : Alert × FlightSearch → Alert × FlightSearch → Prop :=
  fun p q => q.1.created_at ≤ p.1.created_at

instance : DecidableRel joinedCreatedDesc :=
  fun p q => inferInstanceAs (Decidable (q.1.created_at ≤ p.1.created_at))

instance : IsTotal (Alert × FlightSearch) joinedCreatedDesc :=
  ⟨fun p q => le_total q.1.created_at p.1.created_at⟩

instance : IsTrans (Alert × FlightSearch) joinedCreatedDesc :=
  ⟨fun _ _ _ hab hbc => le_trans hbc hab⟩

/-- Handler `getAlerts` (part_004 lines 97-169).  With a `user_id` filter
the query inner-joins alerts with flight searches on
`alerts.flight_search_id = flight_searches.id`, filters on the owning
search's `user_id` plus the optional alert-side conditions, orders by the
alert's `created_at` descending, and projects back to the alert columns.
Without a `user_id` it filters and orders the alerts table directly (a
`where` clause with zero conditions restricts nothing). -/
def getAlerts (input : GetAlertsInput) (db : DB) : List Alert :=
  match input.user_id with
  | some uid =>
      let joined := db.alerts.flatMap (fun a =>
        (db.flight_searches.filter (fun fs => decide (a.flight_search_id = fs.id))).map
          (fun fs => (a, fs)))
      let filtered := joined.filter
        (fun p => decide (p.2.user_id = uid) && alertConds input p.1)
      (filtered.insertionSort joinedCreatedDesc).map Prod.fst
  | none =>
      (db.alerts.filter (fun a => alertConds input a)).insertionSort alertCreatedDesc

/-- Price records belonging to one flight search. -/
def pricesFor (db : DB) (fsid : Nat) : List PriceRecord :=
  db.price_records.filter (fun r => decide (r.flight_search_id = fsid))

/-- Descending order on `recorded_at`, as produced by
`orderBy(desc(priceRecordsTable.recorded_at))`. -/
def recordedDesc : PriceRecord → PriceRecord → Prop :=
  fun a b => b.recorded_at ≤ a.recorded_at

instance : DecidableRel recordedDesc :=
  fun a b => inferInstanceAs (Decidable (b.recorded_at ≤ a.recorded_at))

instance : IsTotal PriceRecord recordedDesc :=
  ⟨fun a b => le_total b.recorded_at a.recorded_at⟩

instance : IsTrans PriceRecord recordedDesc :=
  ⟨fun _ _ _ hab hbc => le_trans hbc hab⟩

/-- Read-side conversion of a stored price record to display form: minor
units divided by 100, every other column verbatim. -/
def displayRecord (r : PriceRecord) : DisplayPriceRecord :=
  { id := r.id
    flight_search_id := r.flight_search_id
    price := (r.price : ℚ) / 100
    currency := r.currency
    provider := r.provider
    recorded_at := r.recorded_at }

/-- Modelled from the spec: the repository's `getPriceHistory` handler
(get_price_history.ts lines 3-9) is an explicit placeholder ("Real code
should be implemented here"), so the operation is modelled from spec
section 4.2: records of the given search ordered by `recorded_at`
descending, truncated to `limit` when supplied, with prices converted
from minor to major units (divided by 100) on the way out. -/
def getPriceHistory (input : GetPriceHistoryInput) (db : DB) : List DisplayPriceRecord :=
  let sorted := (pricesFor db input.flight_search_id).insertionSort recordedDesc
  let limited := match input.limit with
    | some k => sorted.take k
    | none => sorted
  limited.map displayRecord

/-- The data-model invariant of spec section 3: when a return date is
present it is strictly after the departure date. -/
def returnAfterDeparture (fs : FlightSearch) : Bool :=
  match fs.return_date with
  | some r => decide (fs.departure_date < r)
  | none => true

/-- The filter predicate claimed for `getAlerts`: the conjunction of the
supplied filters, with the `user_id` filter resolved through the owning
flight search.  This definition follows the claim's words and is compared
against the handler. -/
def alertMatchesSpec (input : GetAlertsInput) (db : DB) (a : Alert) : Bool :=
  (match input.user_id with
   | some uid =>
       db.flight_searches.any
         (fun fs => decide (a.flight_search_id = fs.id) && decide (fs.user_id = uid))
   | none => true)
  && alertConds input a

end FlightMonitor

namespace FlightMonitor

/-! ### Concrete fixtures used by counterexamples and witnesses -/

/-- A single registered user. -/
def exUser : User := ⟨1, "u@e.x", none, true, 0⟩

/-- Store holding only `exUser`. -/
def exDB0 : DB := ⟨[exUser], [], [], []⟩

/-- A round-trip search request: departure at instant 10, return at 20. -/
def exCreateInput : CreateFlightSearchInput := ⟨1, "NYC", "LON", 10, some 20⟩

/-- Store after `exUser` creates the search at instant 0. -/
def exDB1 : DB := (createFlightSearch 0 exCreateInput exDB0).2

/-- A partial update moving only the departure date to instant 30,
which is after the stored return date 20. -/
def exDepartureUpdate : UpdateFlightSearchInput := ⟨1, none, none, some 30, none, none⟩

/-- An unread price-drop alert on the search of `exDB1`. -/
def exAlert1 : Alert := ⟨1, 1, .price_drop, some 50000, 45000, "USD", "m1", false, 100⟩

/-- A read price-increase alert on the search of `exDB1`, created later. -/
def exAlert2 : Alert := ⟨2, 1, .price_increase, some 45000, 48000, "USD", "m2", true, 200⟩

/-- Store of `exDB1` extended with the two alerts. -/
def exAlertDB : DB := { exDB1 with alerts := [exAlert1, exAlert2] }

/-- Store of `exDB1` extended with two price records (50000 minor units at
instant 5, then 45000 at instant 6). -/
def exPriceDB : DB :=
  { exDB1 with price_records := [⟨1, 1, 50000, "USD", "p", 5⟩, ⟨2, 1, 45000, "USD", "p", 6⟩] }

/-- The in-place update performed by `markAlertRead` on the alerts table. -/
def markReadRow (alertId : Nat) (a : Alert) : Alert :=
  if a.id = alertId then setRead a else a


end FlightMonitor

namespace FlightMonitor

/-! ### C2: zero price at the public boundary -/

/-- Claim C2: a `createPriceRecord` input with price 0 (a legal
non-negative integer amount per the spec) is NOT rejected by the public
operation.  The code contradicts this: `createPriceRecordInputSchema`
demands a strictly positive price, so the tRPC boundary rejects price 0
before the handler runs, even though the handler itself (as its own test
expects) stores a zero price without complaint.  This theorem evaluates
both facts at the failing input. -/
theorem createPriceRecord_zero_price_rejected :
    publicCreatePriceRecord 5 ⟨1, 0, "USD", "prov"⟩ exDB1 =
      (.error .validationError, exDB1) ∧
    (createPriceRecord 5 ⟨1, 0, "USD", "prov"⟩ exDB1).1 =
      .ok ⟨1, 1, 0, "USD", "prov", 5⟩ := by
  constructor <;> rfl

/-! ### C3: the return-after-departure invariant is not preserved -/

/-- Claim C3 (counterexample): the data-model invariant "return_date, when
present, is strictly after departure_date" does NOT hold for every search
reachable through `createFlightSearch` followed by `updateFlightSearch`.
Starting from a valid search (departure 10, return 20), the update that
moves only the departure date to 30 is accepted without any temporal
validation, leaving a stored search with return_date 20 before
departure_date 30. -/
theorem updateFlightSearch_breaks_return_invariant :
    (updateFlightSearch 1 exDepartureUpdate exDB1).2.flight_searches.all
      returnAfterDeparture = false := by
  rfl

/-- Claim C3 (amended): `createFlightSearch` does establish and preserve
the invariant — every search it stores has return_date strictly after
departure_date when present, and it does not touch existing rows — but
`updateFlightSearch` performs no temporal validation, so the invariant
holds only until a date field is updated. -/
theorem createFlightSearch_return_invariant (now : Int)
    (i : CreateFlightSearchInput) (db : DB) (s : FlightSearch) (db' : DB)
    (h : createFlightSearch now i db = (.ok s, db'))
    (hdb : ∀ fs ∈ db.flight_searches, returnAfterDeparture fs = true) :
    ∀ fs ∈ db'.flight_searches, returnAfterDeparture fs = true := by
  simp only [createFlightSearch] at h
  split_ifs at h with h1 h2 h3
  · simp at h
  · simp at h
  · simp at h
  · simp only [Prod.mk.injEq, Except.ok.injEq] at h
    obtain ⟨hs, hdb'⟩ := h
    subst hdb'
    intro fs hfs
    rw [List.mem_append] at hfs
    rcases hfs with hfs | hfs
    · exact hdb fs hfs
    · rw [List.mem_singleton] at hfs
      subst hfs
      unfold returnAfterDeparture
      cases hr : i.return_date with
      | none => simp [hr]
      | some r =>
          have hlt : i.departure_date < r := by
            by_contra hle
            exact h3 ⟨by simp [hr], by simp [hr]; omega⟩
          simp [hr, hlt]

/-- Witness for `createFlightSearch_return_invariant` at the concrete
creation that produces `exDB1`. -/
theorem createFlightSearch_return_invariant_witness :
    returnAfterDeparture ⟨1, 1, "NYC", "LON", 10, some 20, true, 0, 0⟩ = true :=
  createFlightSearch_return_invariant 0 exCreateInput exDB0
    ⟨1, 1, "NYC", "LON", 10, some 20, true, 0, 0⟩ exDB1 rfl (by decide)
    ⟨1, 1, "NYC", "LON", 10, some 20, true, 0, 0⟩ (by decide)

/-! ### C9: a zero old price is coerced to null -/

/-- Claim C9: `createAlert` coerces every falsy `oldPrice` to null, so an
input with `oldPrice = 0` produces and returns an alert whose `old_price`
is null — indistinguishable from "no prior price to compare". -/
theorem createAlert_zero_old_price (now : Int) (i : CreateAlertInput) (db : DB)
    (hfk : db.flight_searches.any (fun s => decide (s.id = i.flight_search_id)) = true)
    (h0 : i.old_price = some 0) :
    ∃ a, createAlert now i db = (.ok a, { db with alerts := db.alerts ++ [a] }) ∧
      a.old_price = none ∧ a.is_read = false ∧ a.new_price = i.new_price := by
  refine ⟨⟨nextId (db.alerts.map (fun t => t.id)), i.flight_search_id, i.alert_type,
      jsOrNull i.old_price, i.new_price, i.currency, i.message, false, now⟩,
    ?_, ?_, rfl, rfl⟩
  · simp only [createAlert, hfk, if_true]
  · simp [jsOrNull, h0]

/-- Witness for `createAlert_zero_old_price`: a concrete alert recorded
with `oldPrice = 0` against the search of `exDB1`. -/
theorem createAlert_zero_old_price_witness :
    exDB1.flight_searches.any (fun s => decide (s.id = 1)) = true ∧
    (some 0 : Option Int) = some 0 ∧
    ∃ a, createAlert 7 ⟨1, .price_drop, some 0, 45000, "USD", "m"⟩ exDB1 =
        (.ok a, { exDB1 with alerts := exDB1.alerts ++ [a] }) ∧
      a.old_price = none ∧ a.is_read = false ∧ a.new_price = 45000 :=
  ⟨by decide, rfl,
   createAlert_zero_old_price 7 ⟨1, .price_drop, some 0, 45000, "USD", "m"⟩ exDB1
     (by decide) rfl⟩

/-! ### C10: updates never change id or ownership -/

/-- Claim C10: a successful `updateFlightSearch` changes neither the
search's `id` nor its `user_id` — the update payload is built only from
the five mutable fields plus `updated_at` — and it leaves the
(id, user_id) column pair of every stored row untouched. -/
theorem updateFlightSearch_preserves_owner (now : Int)
    (input : UpdateFlightSearchInput) (db : DB) (r : FlightSearch) (db' : DB)
    (h : updateFlightSearch now input db = (.ok r, db')) :
    (∃ s, (db.flight_searches.filter (fun t => decide (t.id = input.id))).head? = some s ∧
       r.id = s.id ∧ r.user_id = s.user_id) ∧
    db'.flight_searches.map (fun t => (t.id, t.user_id)) =
      db.flight_searches.map (fun t => (t.id, t.user_id)) := by
  unfold updateFlightSearch at h
  rcases hE : (db.flight_searches.filter (fun t => decide (t.id = input.id))).head? with _ | s
  · rw [hE] at h
    simp at h
  · rw [hE] at h
    simp only [Prod.mk.injEq, Except.ok.injEq] at h
    obtain ⟨hr, hdb'⟩ := h
    subst hr
    subst hdb'
    refine ⟨⟨s, hE, rfl, rfl⟩, ?_⟩
    rw [List.map_map]
    apply List.map_congr_left
    intro t _
    by_cases hid : t.id = input.id
    · simp [Function.comp, hid, applyUpdate]
    · simp [Function.comp, hid]

/-- Witness for `updateFlightSearch_preserves_owner` at the concrete
departure-date update applied to `exDB1`. -/
theorem updateFlightSearch_preserves_owner_witness :
    (∃ s, (exDB1.flight_searches.filter (fun t => decide (t.id = 1))).head? = some s ∧
       (1 : Nat) = s.id ∧ (1 : Nat) = s.user_id) ∧
    (updateFlightSearch 1 exDepartureUpdate exDB1).2.flight_searches.map
        (fun t => (t.id, t.user_id)) =
      exDB1.flight_searches.map (fun t => (t.id, t.user_id)) :=
  updateFlightSearch_preserves_owner 1 exDepartureUpdate exDB1
    ⟨1, 1, "NYC", "LON", 30, some 20, true, 0, 1⟩
    (updateFlightSearch 1 exDepartureUpdate exDB1).2 rfl

end FlightMonitor

namespace FlightMonitor

/-! ### C5: markAlertRead is idempotent -/

/-- Filtering by id commutes with the mark-read update, because the
update never changes an alert's id. -/
theorem filter_id_markReadRow (alertId : Nat) (l : List Alert) :
    (l.map (markReadRow alertId)).filter (fun t => decide (t.id = alertId)) =
      (l.filter (fun t => decide (t.id = alertId))).map (markReadRow alertId) := by
  rw [List.filter_map]
  congr 1
  apply List.filter_congr
  intro t _
  by_cases h : t.id = alertId <;> simp [Function.comp, markReadRow, h, setRead]

/-- The mark-read update is idempotent row by row. -/
theorem markReadRow_idem (alertId : Nat) :
    markReadRow alertId ∘ markReadRow alertId = markReadRow alertId := by
  funext t
  by_cases h : t.id = alertId <;> simp [Function.comp, markReadRow, h, setRead]

/-- Unfolding of `markAlertRead` when a matching alert exists. -/
theorem markAlertRead_found (db : DB) (alertId : Nat) (a : Alert)
    (ha : (db.alerts.filter (fun t => decide (t.id = alertId))).head? = some a) :
    markAlertRead alertId db =
      (.ok (setRead a), { db with alerts := db.alerts.map (markReadRow alertId) }) := by
  simp only [markAlertRead, markReadRow]
  rw [List.head?_map, ha]
  rfl

/-- Claim C5: `markAlertRead` returns the alert with `is_read := true` and
every other field (including `created_at`) unchanged; repeating the call
on the resulting store succeeds again with the identical result and
changes nothing; and a nonexistent alert id fails with NotFound leaving
the store unchanged. -/
theorem markAlertRead_idempotent (db : DB) (alertId : Nat) :
    ((db.alerts.filter (fun t => decide (t.id = alertId))) = [] →
       markAlertRead alertId db = (.error .notFound, db)) ∧
    (∀ a, (db.alerts.filter (fun t => decide (t.id = alertId))).head? = some a →
       markAlertRead alertId db =
         (.ok (setRead a), { db with alerts := db.alerts.map (markReadRow alertId) }) ∧
       (setRead a).is_read = true ∧
       (setRead a).id = a.id ∧ (setRead a).flight_search_id = a.flight_search_id ∧
       (setRead a).alert_type = a.alert_type ∧ (setRead a).old_price = a.old_price ∧
       (setRead a).new_price = a.new_price ∧ (setRead a).currency = a.currency ∧
       (setRead a).message = a.message ∧ (setRead a).created_at = a.created_at ∧
       markAlertRead alertId { db with alerts := db.alerts.map (markReadRow alertId) } =
         (.ok (setRead a),
          { db with alerts := db.alerts.map (markReadRow alertId) })) := by
  constructor
  · intro hnil
    have hmapid : db.alerts.map (fun t => if t.id = alertId then setRead t else t) =
        db.alerts := by
      conv_rhs => rw [← List.map_id db.alerts]
      apply List.map_congr_left
      intro t ht
      have hne := List.filter_eq_nil_iff.mp hnil t ht
      simp only [decide_eq_true_eq] at hne
      simp [hne]
    simp only [markAlertRead, hnil, List.map_nil, List.head?_nil, hmapid]
  · intro a ha
    have hmem : a ∈ db.alerts.filter (fun t => decide (t.id = alertId)) :=
      List.mem_of_mem_head? (Option.mem_def.mpr ha)
    have haid : a.id = alertId := by
      simpa using (List.mem_filter.mp hmem).2
    have hfa : markReadRow alertId a = setRead a := by
      simp [markReadRow, haid]
    have hsecond : (({ db with alerts := db.alerts.map (markReadRow alertId) } : DB).alerts.filter
        (fun t => decide (t.id = alertId))).head? = some (setRead a) := by
      show ((db.alerts.map (markReadRow alertId)).filter
        (fun t => decide (t.id = alertId))).head? = some (setRead a)
      rw [filter_id_markReadRow, List.head?_map, ha]
      simp [hfa]
    refine ⟨markAlertRead_found db alertId a ha, rfl, rfl, rfl, rfl, rfl, rfl, rfl, rfl, rfl, ?_⟩
    have := markAlertRead_found { db with alerts := db.alerts.map (markReadRow alertId) }
      alertId (setRead a) hsecond
    rw [this]
    have hmm : (({ db with alerts := db.alerts.map (markReadRow alertId) } : DB).alerts.map
        (markReadRow alertId)) = db.alerts.map (markReadRow alertId) := by
      show (db.alerts.map (markReadRow alertId)).map (markReadRow alertId) =
        db.alerts.map (markReadRow alertId)
      rw [List.map_map, markReadRow_idem]
    rw [Prod.mk.injEq]
    constructor
    · rfl
    · show ({ db with alerts := (db.alerts.map (markReadRow alertId)).map (markReadRow alertId) } : DB) = _
      rw [List.map_map, markReadRow_idem]

end FlightMonitor

namespace FlightMonitor

/-- Witness for `markAlertRead_idempotent`: on the concrete store holding
the unread `exAlert1`, marking alert 1 read succeeds, and marking it read
a second time returns the identical alert and store. -/
theorem markAlertRead_idempotent_witness :
    (exAlertDB.alerts.filter (fun t => decide (t.id = 1))).head? = some exAlert1 ∧
    markAlertRead 1 exAlertDB =
      (.ok (setRead exAlert1),
       { exAlertDB with alerts := exAlertDB.alerts.map (markReadRow 1) }) ∧
    markAlertRead 1 { exAlertDB with alerts := exAlertDB.alerts.map (markReadRow 1) } =
      (.ok (setRead exAlert1),
       { exAlertDB with alerts := exAlertDB.alerts.map (markReadRow 1) }) :=
  ⟨rfl,
   ((markAlertRead_idempotent exAlertDB 1).2 exAlert1 rfl).1,
   ((markAlertRead_idempotent exAlertDB 1).2 exAlert1
      rfl).2.2.2.2.2.2.2.2.2.2⟩

/-! ### C6: recordPrice guards -/

/-- Claim C6: `createPriceRecord` against a nonexistent flight search
always fails with NotFound, and against an existing but inactive search
always fails with Inactive; in both cases the store is returned unchanged
(the handler throws before its insert). -/
theorem createPriceRecord_guards (now : Int) (i : CreatePriceRecordInput) (db : DB) :
    ((db.flight_searches.filter (fun s => decide (s.id = i.flight_search_id))) = [] →
       createPriceRecord now i db = (.error .notFound, db)) ∧
    (∀ fs, (db.flight_searches.filter
          (fun s => decide (s.id = i.flight_search_id))).head? = some fs →
       fs.is_active = false →
       createPriceRecord now i db = (.error .inactive, db)) := by
  constructor
  · intro hnil
    simp only [createPriceRecord, hnil, List.head?_nil]
  · intro fs hfs hact
    simp only [createPriceRecord]
    rw [hfs]
    simp [hact]

/-- Witness for `createPriceRecord_guards`: in `exDB0` no search exists at
all, so recording a price at search id 1 fails with NotFound and leaves
the store unchanged. -/
theorem createPriceRecord_guards_witness :
    (exDB0.flight_searches.filter (fun s => decide (s.id = 1))) = [] ∧
    createPriceRecord 5 ⟨1, 42, "USD", "prov"⟩ exDB0 = (.error .notFound, exDB0) :=
  ⟨by decide,
   (createPriceRecord_guards 5 ⟨1, 42, "USD", "prov"⟩ exDB0).1 (by decide)⟩

/-! ### C7: createFlightSearch temporal guards -/

/-- Claim C7: given an existing user, `createFlightSearch` fails with the
temporal-range error whenever the departure date is not strictly in the
future, or whenever a supplied return date is not strictly after the
departure; when the departure is future and any supplied return date is
strictly later (by any positive amount), it succeeds and stores a new
search with `is_active := true`; in the failure cases the store is
returned unchanged. -/
theorem createFlightSearch_guards (now : Int) (i : CreateFlightSearchInput) (db : DB)
    (huser : ∃ u ∈ db.users, u.id = i.user_id) :
    (i.departure_date ≤ now →
       createFlightSearch now i db = (.error .invalidTemporalRange, db)) ∧
    (∀ r, i.return_date = some r → now < i.departure_date →
       r ≤ i.departure_date →
       createFlightSearch now i db = (.error .invalidTemporalRange, db)) ∧
    (now < i.departure_date →
     (∀ r, i.return_date = some r → i.departure_date < r) →
     ∃ s, createFlightSearch now i db =
         (.ok s, { db with flight_searches := db.flight_searches ++ [s] }) ∧
       s.is_active = true ∧ s.user_id = i.user_id ∧ s.origin_city = i.origin_city ∧
       s.destination_city = i.destination_city ∧
       s.departure_date = i.departure_date ∧ s.return_date = i.return_date ∧
       s.created_at = now ∧ s.updated_at = now) := by
  have hlen : ¬ (db.users.filter (fun u => decide (u.id = i.user_id))).length = 0 := by
    obtain ⟨u, hu, hid⟩ := huser
    intro h0
    rw [List.length_eq_zero] at h0
    have hmem : u ∈ db.users.filter (fun u => decide (u.id = i.user_id)) :=
      List.mem_filter.mpr ⟨hu, by simp [hid]⟩
    rw [h0] at hmem
    exact List.not_mem_nil u hmem
  refine ⟨?_, ?_, ?_⟩
  · intro hle
    simp [createFlightSearch, hlen, hle]
  · intro r hr hnow hrle
    simp [createFlightSearch, hlen, not_le.mpr hnow, hr, hrle]
  · intro hnow hret
    have hcond : ¬ (i.return_date.isSome ∧ i.return_date.getD 0 ≤ i.departure_date) := by
      rintro ⟨hsome, hle⟩
      cases hr : i.return_date with
      | none => rw [hr] at hsome; exact Bool.noConfusion hsome
      | some r =>
          rw [hr] at hle
          exact absurd hle (not_le.mpr (hret r hr))
    refine ⟨⟨nextId (db.flight_searches.map (fun t => t.id)), i.user_id, i.origin_city,
        i.destination_city, i.departure_date, i.return_date, true, now, now⟩,
      ?_, rfl, rfl, rfl, rfl, rfl, rfl, rfl, rfl⟩
    simp [createFlightSearch, hlen, not_le.mpr hnow, hcond]

/-- Witness for `createFlightSearch_guards`: with the registered user of
`exDB0`, a departure at instant 10 viewed from instant 20 is in the past
and is rejected with the temporal-range error. -/
theorem createFlightSearch_guards_witness :
    (∃ u ∈ exDB0.users, u.id = 1) ∧
    (10 : Int) ≤ 20 ∧
    createFlightSearch 20 exCreateInput exDB0 = (.error .invalidTemporalRange, exDB0) :=
  ⟨⟨exUser, by decide, rfl⟩, by decide,
   (createFlightSearch_guards 20 exCreateInput exDB0 ⟨exUser, by decide, rfl⟩).1
     (by decide)⟩

/-! ### C4: updateFlightSearch frame conditions -/

/-- Claim C4: for an existing search, `updateFlightSearch` keeps every
field not supplied in the input at its prior stored value, stores an
explicit null return date as null (distinct from "not supplied", which
keeps the prior value), sets `updated_at` to the call instant — strictly
increasing it whenever the clock has advanced, even for an update that
supplies zero fields — and never changes `created_at`. -/
theorem updateFlightSearch_frame (now : Int) (input : UpdateFlightSearchInput)
    (db : DB) (s : FlightSearch)
    (hfound : (db.flight_searches.filter (fun t => decide (t.id = input.id))).head? = some s)
    (hclock : s.updated_at < now) :
    updateFlightSearch now input db =
      (.ok (applyUpdate now input s),
       { db with
         flight_searches := db.flight_searches.map
           (fun t => if t.id = input.id then applyUpdate now input t else t) }) ∧
    (input.origin_city = none → (applyUpdate now input s).origin_city = s.origin_city) ∧
    (input.destination_city = none →
       (applyUpdate now input s).destination_city = s.destination_city) ∧
    (input.departure_date = none →
       (applyUpdate now input s).departure_date = s.departure_date) ∧
    (input.return_date = none → (applyUpdate now input s).return_date = s.return_date) ∧
    (input.is_active = none → (applyUpdate now input s).is_active = s.is_active) ∧
    (input.return_date = some none → (applyUpdate now input s).return_date = none) ∧
    (∀ d, input.return_date = some (some d) →
       (applyUpdate now input s).return_date = some d) ∧
    (applyUpdate now input s).created_at = s.created_at ∧
    (applyUpdate now input s).updated_at = now ∧
    s.updated_at < (applyUpdate now input s).updated_at := by
  refine ⟨?_, ?_, ?_, ?_, ?_, ?_, ?_, ?_, rfl, rfl, hclock⟩
  · simp only [updateFlightSearch]
    rw [hfound]
  · intro h
    simp [applyUpdate, h]
  · intro h
    simp [applyUpdate, h]
  · intro h
    simp [applyUpdate, h]
  · intro h
    simp [applyUpdate, h]
  · intro h
    simp [applyUpdate, h]
  · intro h
    simp [applyUpdate, h]
  · intro d h
    simp [applyUpdate, h]

/-- Witness for `updateFlightSearch_frame` at the concrete departure-date
update applied to `exDB1` (stored `updated_at` is 0, clock is 1). -/
theorem updateFlightSearch_frame_witness :
    (exDB1.flight_searches.filter (fun t => decide (t.id = 1))).head? =
      some ⟨1, 1, "NYC", "LON", 10, some 20, true, 0, 0⟩ ∧
    ((⟨1, 1, "NYC", "LON", 10, some 20, true, 0, 0⟩ : FlightSearch).updated_at < 1) ∧
    updateFlightSearch 1 exDepartureUpdate exDB1 =
      (.ok (applyUpdate 1 exDepartureUpdate ⟨1, 1, "NYC", "LON", 10, some 20, true, 0, 0⟩),
       { exDB1 with
         flight_searches := exDB1.flight_searches.map
           (fun t => if t.id = 1 then applyUpdate 1 exDepartureUpdate t else t) }) :=
  ⟨rfl, by decide,
   (updateFlightSearch_frame 1 exDepartureUpdate exDB1
      ⟨1, 1, "NYC", "LON", 10, some 20, true, 0, 0⟩ rfl (by decide)).1⟩

end FlightMonitor

namespace FlightMonitor

/-! ### C1: getPriceHistory -/

/-- Claim C1: `getPriceHistory` results are sorted by `recorded_at`
descending; with `limit = k` the result is exactly the first `k` entries
of the full newest-first history (hence `min k n` records, the most
recent ones); without a limit it returns all `n` records of the search;
every returned price is the stored minor-unit integer divided by 100; and
a flight search id with no records yields the empty sequence rather than
an error. -/
theorem getPriceHistory_spec (db : DB) (fsid : Nat) (k : Option Nat) :
    (getPriceHistory ⟨fsid, k⟩ db).Sorted
      (fun a b => b.recorded_at ≤ a.recorded_at) ∧
    (∀ kk, k = some kk →
       (getPriceHistory ⟨fsid, k⟩ db).length = min kk (pricesFor db fsid).length ∧
       getPriceHistory ⟨fsid, k⟩ db = (getPriceHistory ⟨fsid, none⟩ db).take kk) ∧
    (k = none →
       (getPriceHistory ⟨fsid, k⟩ db).length = (pricesFor db fsid).length ∧
       (getPriceHistory ⟨fsid, k⟩ db).Perm ((pricesFor db fsid).map displayRecord)) ∧
    (∀ r ∈ getPriceHistory ⟨fsid, k⟩ db, ∃ s, s ∈ db.price_records ∧
       s.flight_search_id = fsid ∧ r = displayRecord s ∧
       r.price = (s.price : ℚ) / 100) ∧
    ((∀ s ∈ db.price_records, s.flight_search_id ≠ fsid) →
       getPriceHistory ⟨fsid, k⟩ db = []) := by
  have hsortS : ((pricesFor db fsid).insertionSort recordedDesc).Sorted recordedDesc :=
    List.sorted_insertionSort recordedDesc (pricesFor db fsid)
  have hpermS : ((pricesFor db fsid).insertionSort recordedDesc).Perm (pricesFor db fsid) :=
    List.perm_insertionSort recordedDesc (pricesFor db fsid)
  refine ⟨?_, ?_, ?_, ?_, ?_⟩
  · cases k with
    | none =>
        simp only [getPriceHistory]
        exact List.Pairwise.map displayRecord (fun a b h => h) hsortS
    | some kk =>
        simp only [getPriceHistory]
        exact List.Pairwise.map displayRecord (fun a b h => h)
          (List.Pairwise.sublist (List.take_sublist kk _) hsortS)
  · intro kk hk
    subst hk
    simp only [getPriceHistory]
    constructor
    · rw [List.length_map, List.length_take, hpermS.length_eq]
    · rw [List.map_take]
  · intro hk
    subst hk
    simp only [getPriceHistory]
    exact ⟨by rw [List.length_map, hpermS.length_eq], hpermS.map displayRecord⟩
  · intro r hr
    have hr' : ∃ s, s ∈ (pricesFor db fsid).insertionSort recordedDesc ∧
        displayRecord s = r := by
      cases k with
      | none =>
          simp only [getPriceHistory] at hr
          obtain ⟨s, hs, hds⟩ := List.mem_map.mp hr
          exact ⟨s, hs, hds⟩
      | some kk =>
          simp only [getPriceHistory] at hr
          obtain ⟨s, hs, hds⟩ := List.mem_map.mp hr
          exact ⟨s, List.mem_of_mem_take hs, hds⟩
    obtain ⟨s, hsS, hds⟩ := hr'
    have hsL : s ∈ pricesFor db fsid := hpermS.mem_iff.mp hsS
    have hsP := List.mem_filter.mp hsL
    refine ⟨s, hsP.1, by simpa using hsP.2, hds.symm, ?_⟩
    rw [← hds]
    rfl
  · intro hnone
    have hempty : pricesFor db fsid = [] := by
      apply List.filter_eq_nil_iff.mpr
      intro s hs
      simpa using hnone s hs
    cases k with
    | none => simp [getPriceHistory, hempty]
    | some kk => simp [getPriceHistory, hempty]

/-- Witness for `getPriceHistory_spec`: on the concrete store with two
price records, the limit-1 query returns exactly one record — the most
recent — as the one-element prefix of the full newest-first history. -/
theorem getPriceHistory_spec_witness :
    ((some 1 : Option Nat) = some 1) ∧
    (getPriceHistory ⟨1, some 1⟩ exPriceDB).length = min 1 (pricesFor exPriceDB 1).length ∧
    getPriceHistory ⟨1, some 1⟩ exPriceDB = (getPriceHistory ⟨1, none⟩ exPriceDB).take 1 :=
  ⟨rfl, ((getPriceHistory_spec exPriceDB 1 (some 1)).2.1 1 rfl).1,
   ((getPriceHistory_spec exPriceDB 1 (some 1)).2.1 1 rfl).2⟩

end FlightMonitor

namespace FlightMonitor

/-! ### C8: getAlerts filtering -/

/-- Collapse of the inner join for a single alert: because search ids are
unique, the joined rows for one alert that survive the user filter
project to `[a]` when some owning search matches the user (and the
alert-side conditions hold) and to `[]` otherwise. -/
theorem join_single (ss : List FlightSearch)
    (hnodup : (ss.map (fun fs => fs.id)).Nodup) (uid : Nat) (a : Alert)
    (conda : Bool) :
    (ss.filter (fun fs => decide (fs.user_id = uid) && conda &&
        decide (a.flight_search_id = fs.id))).map (fun _ => a) =
      if ss.any (fun fs => decide (a.flight_search_id = fs.id) &&
          decide (fs.user_id = uid)) && conda
      then [a] else [] := by
  induction ss with
  | nil => simp
  | cons fs ss ih =>
      rw [List.map_cons, List.nodup_cons] at hnodup
      obtain ⟨hnotin, htail⟩ := hnodup
      rw [List.filter_cons, List.any_cons]
      by_cases hid : a.flight_search_id = fs.id
      · have hssne : ∀ fs2 ∈ ss, ¬ (a.flight_search_id = fs2.id) := by
          intro fs2 h2 heq
          exact hnotin (List.mem_map.mpr ⟨fs2, h2, by rw [← heq, hid]⟩)
        have hfilter_ss : ss.filter (fun fs2 => decide (fs2.user_id = uid) && conda &&
            decide (a.flight_search_id = fs2.id)) = [] := by
          apply List.filter_eq_nil_iff.mpr
          intro fs2 h2
          simp [hssne fs2 h2]
        have hany_ss : ss.any (fun fs2 => decide (a.flight_search_id = fs2.id) &&
            decide (fs2.user_id = uid)) = false := by
          rw [List.any_eq_false]
          intro fs2 h2
          simp [hssne fs2 h2]
        rw [hfilter_ss, hany_ss]
        by_cases huser : fs.user_id = uid
        · by_cases hconda : conda = true
          · simp [hid, huser, hconda]
          · rw [Bool.not_eq_true] at hconda
            simp [hid, huser, hconda]
        · simp [hid, huser]
      · have hht := ih htail
        simpa [hid] using hht

/-- Collapse of the whole joined query: joining the alerts with the
flight searches, filtering on the owning search's user and the alert-side
conditions, and projecting back to alerts is the same as filtering the
alerts table by "some search with this id belongs to the user" plus the
alert-side conditions. -/
theorem join_collapse (ss : List FlightSearch)
    (hnodup : (ss.map (fun fs => fs.id)).Nodup) (uid : Nat)
    (cond : Alert → Bool) (as : List Alert) :
    ((as.flatMap (fun a => (ss.filter
          (fun fs => decide (a.flight_search_id = fs.id))).map
            (fun fs => (a, fs)))).filter
        (fun p => decide (p.2.user_id = uid) && cond p.1)).map Prod.fst =
      as.filter (fun a =>
        ss.any (fun fs => decide (a.flight_search_id = fs.id) &&
          decide (fs.user_id = uid)) && cond a) := by
  induction as with
  | nil => rfl
  | cons a as ih =>
      rw [List.flatMap_cons, List.filter_append, List.map_append, ih, List.filter_cons]
      have hhead : (((ss.filter (fun fs => decide (a.flight_search_id = fs.id))).map
            (fun fs => (a, fs))).filter
          (fun p => decide (p.2.user_id = uid) && cond p.1)).map Prod.fst =
          if ss.any (fun fs => decide (a.flight_search_id = fs.id) &&
              decide (fs.user_id = uid)) && cond a
          then [a] else [] := by
        rw [List.filter_map, List.map_map]
        have hcomp : ((fun p : Alert × FlightSearch =>
            decide (p.2.user_id = uid) && cond p.1) ∘ (fun fs => (a, fs))) =
            (fun fs => decide (fs.user_id = uid) && cond a) := rfl
        have hcomp2 : (Prod.fst ∘ (fun fs : FlightSearch => (a, fs))) =
            (fun _ => a) := rfl
        rw [hcomp, hcomp2, List.filter_filter]
        exact join_single ss hnodup uid a (cond a)
      rw [hhead]
      by_cases hp : (ss.any (fun fs => decide (a.flight_search_id = fs.id) &&
          decide (fs.user_id = uid)) && cond a) = true
      · simp only [hp]
        simp
      · rw [Bool.not_eq_true] at hp
        simp only [hp]
        simp

/-- Claim C8: for every combination of the optional filters, `getAlerts`
returns exactly the alerts satisfying the conjunction of the supplied
filters — the user filter resolved through the owning flight search —
ordered by `created_at` descending, and with zero filters it returns the
entire alert set in that order.  Search ids are assumed unique (primary
key). -/
theorem getAlerts_spec (db : DB) (input : GetAlertsInput)
    (hnodup : (db.flight_searches.map (fun fs => fs.id)).Nodup) :
    (getAlerts input db).Sorted (fun a b => b.created_at ≤ a.created_at) ∧
    (getAlerts input db).Perm (db.alerts.filter (alertMatchesSpec input db)) ∧
    (input = ⟨none, none, none⟩ → (getAlerts input db).Perm db.alerts) := by
  refine ⟨?_, ?_, ?_⟩
  · cases hu : input.user_id with
    | none =>
        simp only [getAlerts, hu]
        exact List.sorted_insertionSort alertCreatedDesc _
    | some uid =>
        simp only [getAlerts, hu]
        exact List.Pairwise.map Prod.fst (fun p q h => h)
          (List.sorted_insertionSort joinedCreatedDesc _)
  · cases hu : input.user_id with
    | none =>
        simp only [getAlerts, hu]
        have hsame : db.alerts.filter (alertMatchesSpec input db) =
            db.alerts.filter (fun a => alertConds input a) := by
          apply List.filter_congr
          intro a _
          simp [alertMatchesSpec, hu]
        rw [hsame]
        exact List.perm_insertionSort alertCreatedDesc _
    | some uid =>
        simp only [getAlerts, hu]
        have hmspec : db.alerts.filter (alertMatchesSpec input db) =
            db.alerts.filter (fun a => db.flight_searches.any
              (fun fs => decide (a.flight_search_id = fs.id) &&
                decide (fs.user_id = uid)) && alertConds input a) := by
          apply List.filter_congr
          intro a _
          simp [alertMatchesSpec, hu]
        rw [hmspec, ← join_collapse db.flight_searches hnodup uid (alertConds input)
          db.alerts]
        exact (List.perm_insertionSort joinedCreatedDesc _).map Prod.fst
  · intro hinput
    subst hinput
    simp only [getAlerts]
    have hall : db.alerts.filter (fun a =>
        alertConds ⟨none, none, none⟩ a) = db.alerts := by
      apply List.filter_eq_self.mpr
      intro a _
      simp [alertConds]
    rw [hall]
    exact List.perm_insertionSort alertCreatedDesc _

end FlightMonitor

namespace FlightMonitor

/-- Witness for `getAlerts_spec`: filtering by user 1 and unread status on
the concrete store returns exactly the matching alerts in newest-first
order. -/
theorem getAlerts_spec_witness :
    (exAlertDB.flight_searches.map (fun fs => fs.id)).Nodup ∧
    (getAlerts ⟨some 1, none, some false⟩ exAlertDB).Perm
      (exAlertDB.alerts.filter (alertMatchesSpec ⟨some 1, none, some false⟩ exAlertDB)) :=
  ⟨by decide,
   (getAlerts_spec exAlertDB ⟨some 1, none, some false⟩ (by decide)).2.1⟩

end FlightMonitor
